import Mathlib

/-!
Shallow embedding of `scripts/esp32_mock_server.py` (ESP32 mock server).

The script keeps two module-level globals, `current_message` and
`current_message_id`, both initialised to `None`.  They are mutated only by
`console_input_loop`, read by `handle_get_messages`, and untouched by
`handle_post_response` and `udp_discovery_loop`.  We embed that shared state
as `SlotState`, the per-iteration bodies of the two loops as step functions,
and the two HTTP handlers as functions from the slot state to an explicit
response value (the GET handler also returns the state it leaves behind, so
that "no side effect" is a statement and not a modelling artefact).

Machine-level boundaries are embedded as follows: the `await request.json()`
call of the POST handler either yields a parsed JSON document or raises, so
the handler is a function on `Except Unit Json`; the UDP loop works on the
UTF-8 decoded text of the datagram, so the step takes the decoded payload as
a `String`; wall-clock milliseconds (`int(time.time() * 1000)`) are an
explicit `Nat` argument.
-/

/-- JSON documents as produced by Python's `json.loads` (objects are dicts,
hence the field list of `obj` represents a dict whose keys are distinct;
floats do not occur in any payload of this protocol and are omitted). -/
inductive Json where
  | null : Json
  | bool (b : Bool) : Json
  | num (n : Int) : Json
  | str (s : String) : Json
  | arr (elems : List Json) : Json
  | obj (fields : List (String × Json)) : Json

/-- The two module-level globals of the script:
`current_message = None` and `current_message_id = None` at process start. -/
structure SlotState where
  current_message : Option String
  current_message_id : Option String
deriving DecidableEq

/-- Process-start state: both globals are `None`. -/
def initialState : SlotState := { current_message := none, current_message_id := none }

/-- Python truthiness of the value held in `current_message`:
`None` and the empty string are falsy, every other string is truthy
(this is the `if current_message:` test of `handle_get_messages`). -/
def py_truthy : Option String → Bool
  | none => false
  | some s => !(s == "")

/-- Python `.strip()` with no argument: removes leading and trailing
whitespace characters.  Embedded structurally over the character list so
that it evaluates inside the kernel (the protocol is pure ASCII, so the
ASCII whitespace set of `Char.isWhitespace` is the relevant one). -/
def pyStrip (s : String) : String :=
  ⟨((s.data.dropWhile Char.isWhitespace).reverse.dropWhile Char.isWhitespace).reverse⟩

/-- The single-quote character, used by Python `repr` of strings. -/
def pyQuote : String := String.singleton (Char.ofNat 39)

mutual

/-- Python `repr()` of a parsed-JSON value (inner-quote escaping is not
reproduced: no datagram or payload of this protocol needs it). -/
def pyRepr : Json → String
  | .null => "None"
  | .bool true => "True"
  | .bool false => "False"
  | .num n => toString n
  | .str s => pyQuote ++ s ++ pyQuote
  | .arr xs => "[" ++ pyReprList xs ++ "]"
  | .obj fs => "\x7b" ++ pyReprFields fs ++ "\x7d"

/-- Comma-separated `repr`s of the elements of a Python list. -/
def pyReprList : List Json → String
  | [] => ""
  | [x] => pyRepr x
  | x :: xs => pyRepr x ++ ", " ++ pyReprList xs

/-- Comma-separated `key: value` `repr`s of the items of a Python dict. -/
def pyReprFields : List (String × Json) → String
  | [] => ""
  | [(k, v)] => pyQuote ++ k ++ pyQuote ++ ": " ++ pyRepr v
  | (k, v) :: fs => pyQuote ++ k ++ pyQuote ++ ": " ++ pyRepr v ++ ", " ++ pyReprFields fs

end

/-- Python `str()` of a parsed-JSON value (as applied by an f-string):
identical to `repr` except on strings, which render unquoted. -/
def pyStr : Json → String
  | .str s => s
  | j => pyRepr j

/-- Per-datagram body of `udp_discovery_loop`: given the HTTP port injected
at startup, the UTF-8 decoded payload of a received datagram and the
address of the sender, it returns `some (reply, addr)` when a reply
datagram is sent back and `none` when the datagram is ignored.  The code
strips the payload, compares it with the literal `FLUENS_DISCOVER` and, on
a match, sends `f"FLUENS_ESP32_HERE:{http_port}"` to the sender. -/
def udp_discovery_step (http_port : Nat) (payload : String) (addr : String × Nat) :
    Option (String × (String × Nat)) :=
  let message := pyStrip payload
  if message = "FLUENS_DISCOVER" then
    some ("FLUENS_ESP32_HERE:" ++ toString http_port, addr)
  else
    none

/-- The HTTP response produced by `handle_get_messages`: `web.Response` with
the default status 200, the declared content type, and `json.dumps(data)` as
body, represented here at the JSON level. -/
structure GetResult where
  status : Nat
  content_type : String
  body : Json

/-- A `None`-able Python string as a JSON value (`json.dumps` turns `None`
into `null`). -/
def jsonOfOpt : Option String → Json
  | none => Json.null
  | some s => Json.str s

/-- Embedding of `handle_get_messages`: reads the globals, never writes
them (the function body contains no assignment to either global), so it
returns the unchanged state together with the response.  It answers
`{"message": current_message, "id": current_message_id}` when
`current_message` is truthy and `{}` otherwise, always with status 200. -/
def handle_get_messages (s : SlotState) : SlotState × GetResult :=
  let data : Json :=
    if py_truthy s.current_message then
      Json.obj [("message", jsonOfOpt s.current_message), ("id", jsonOfOpt s.current_message_id)]
    else
      Json.obj []
  (s, { status := 200, content_type := "application/json", body := data })

/-- The observable outcome of one `handle_post_response` call: HTTP status,
response body text, and what (if anything) was printed to the console. -/
structure PostResult where
  status : Nat
  body : Option String
  console_output : Option String
deriving DecidableEq

/-- Python `dict.get(key, default)` over the field list of a parsed JSON
object (keys of a parsed dict are distinct, so first match is the match). -/
def dict_get (fields : List (String × Json)) (key : String) (dflt : Json) : Json :=
  match fields.find? (fun kv => kv.1 == key) with
  | some kv => kv.2
  | none => dflt

/-- Embedding of `handle_post_response`.  `await request.json()` either
yields a parsed document (`Except.ok`) or raises (`Except.error`).  On a
parsed dict the handler prints the f-string
`"\n[APP SAYS]: " + str(data.get("response", "")) + "\n> "` and answers
200 `OK`; any exception — a JSON parse failure, or the `AttributeError`
raised by `.get` when the parsed document is not a dict — lands in the
`except` clause, which answers status 400 and prints nothing. -/
def handle_post_response (parsed : Except Unit Json) : PostResult :=
  match parsed with
  | .error _ => { status := 400, body := none, console_output := none }
  | .ok (.obj fields) =>
    let response_text := dict_get fields "response" (Json.str "")
    { status := 200, body := some "OK",
      console_output := some ("\n[APP SAYS]: " ++ pyStr response_text ++ "\n> ") }
  | .ok _ => { status := 400, body := none, console_output := none }

/-- The write performed by `console_input_loop` when a stripped line is
non-empty: `current_message = msg` and
`current_message_id = str(int(time.time() * 1000))`.  The previous
contents of both globals are overwritten unconditionally. -/
def set_message (msg : String) (now_ms : Nat) : SlotState :=
  { current_message := some msg, current_message_id := some (Nat.repr now_ms) }

/-- What one iteration of `console_input_loop` does with the line returned
by `sys.stdin.readline`. -/
inductive ConsoleOutcome where
  | terminated : ConsoleOutcome
  | looped (state : SlotState) (prompt_reprinted : Bool) : ConsoleOutcome
deriving DecidableEq

/-- Per-line body of `console_input_loop`: `readline` returning the empty
string (end of input) breaks out of the loop; otherwise the line is
stripped, and when the stripped text is non-empty both globals are
overwritten and the `"> "` prompt is re-printed; a line that strips to
nothing leaves the state alone and prints nothing. -/
def console_input_step (s : SlotState) (line : String) (now_ms : Nat) : ConsoleOutcome :=
  if line = "" then
    ConsoleOutcome.terminated
  else
    let msg := pyStrip line
    if msg = "" then
      ConsoleOutcome.looped s false
    else
      ConsoleOutcome.looped (set_message msg now_ms) true

/-- Reading the slot: the `(text, id)` pair a `get` observes; these are the
two global reads performed by `handle_get_messages`. -/
def slot_get (s : SlotState) : Option String × Option String :=
  (s.current_message, s.current_message_id)

/-- A sequence of Message Slot writes with no interleaved `get`: each write
is the unconditional overwrite `set_message`, applied left to right with
its wall-clock millisecond reading. -/
def run_sets (s : SlotState) (writes : List (String × Nat)) : SlotState :=
  writes.foldl (fun _st w => set_message w.1 w.2) s

/-- One scheduled turn of a component that can touch the two globals: the
console loop handling one input line, the GET handler serving one poll, or
the POST handler serving one response (whose body never references the
globals, so its state effect is nil whatever was parsed). -/
inductive Op where
  | consoleLine (line : String) (now_ms : Nat) : Op
  | getMessages : Op
  | postResponse (parsed : Except Unit Json) : Op

/-- Effect of one operation on the shared globals.  Only the console line
can mutate them; the GET handler hands the state through, and the POST
handler runs without reading or writing either global. -/
def apply_op (s : SlotState) (op : Op) : SlotState :=
  match op with
  | .consoleLine line now_ms =>
    match console_input_step s line now_ms with
    | .terminated => s
    | .looped s2 _ => s2
  | .getMessages => (handle_get_messages s).1
  | .postResponse parsed =>
    let _ := handle_post_response parsed
    s

/-- Whether an operation performs a Message Slot `set`: only a console line
that is non-empty and strips to non-empty text does. -/
def op_writes : Op → Bool
  | .consoleLine line _ => !(line == "") && !(pyStrip line == "")
  | .getMessages => false
  | .postResponse _ => false

/-- The C7 invariant: `current_message_id` is present exactly when
`current_message` is. -/
def slot_invariant (s : SlotState) : Prop :=
  s.current_message.isSome = s.current_message_id.isSome

/-- Fuel-indexed digit printer of core Lean, expressed through `Nat.digits`:
for positive `n` below the fuel bound it prepends the decimal digits of `n`
(most significant first) to the accumulator. -/
lemma toDigitsCore_eq_digits (f : Nat) : ∀ (n : Nat) (acc : List Char), n < f → 0 < n →
    Nat.toDigitsCore 10 f n acc = ((Nat.digits 10 n).map Nat.digitChar).reverse ++ acc := by
  induction f with
  | zero => intro n acc h _; omega
  | succ f ih =>
    intro n acc hlt hpos
    rw [Nat.toDigitsCore]
    by_cases h10 : n / 10 = 0
    · simp only [h10, if_pos]
      rw [Nat.digits_def' (by norm_num : (1:Nat) < 10) hpos, h10]
      simp
    · simp only [h10, if_neg, if_false]
      have hdiv : n / 10 < f := by
        have := Nat.div_lt_self hpos (by norm_num : 1 < 10)
        omega
      rw [ih (n / 10) _ hdiv (Nat.pos_of_ne_zero h10)]
      rw [Nat.digits_def' (by norm_num : (1:Nat) < 10) hpos]
      simp

/-- Decimal rendering of a positive number, as its digit characters. -/
lemma repr_eq_digits (n : Nat) (h : 0 < n) :
    Nat.repr n = (((Nat.digits 10 n).map Nat.digitChar).reverse).asString := by
  show (Nat.toDigits 10 n).asString = _
  rw [Nat.toDigits, toDigitsCore_eq_digits (n+1) n [] (Nat.lt_succ_self n) h, List.append_nil]

/-- Digit characters of distinct decimal digits are distinct. -/
lemma digitChar_inj_on : ∀ a < 10, ∀ b < 10, Nat.digitChar a = Nat.digitChar b → a = b := by
  decide

/-- Rendering lists of decimal digits as characters is injective. -/
lemma map_digitChar_inj : ∀ (l1 l2 : List Nat), (∀ d ∈ l1, d < 10) → (∀ d ∈ l2, d < 10) →
    l1.map Nat.digitChar = l2.map Nat.digitChar → l1 = l2 := by
  intro l1
  induction l1 with
  | nil =>
    intro l2 _ _ h
    cases l2 with
    | nil => rfl
    | cons b tl => simp at h
  | cons a tl ih =>
    intro l2 h1 h2 h
    cases l2 with
    | nil => simp at h
    | cons b tl2 =>
      simp only [List.map_cons, List.cons.injEq] at h
      have ha : a = b := digitChar_inj_on a (h1 a (by simp)) b (h2 b (by simp)) h.1
      have htl : tl = tl2 :=
        ih tl2 (fun d hd => h1 d (by simp [hd])) (fun d hd => h2 d (by simp [hd])) h.2
      rw [ha, htl]

/-- Packing a character list into a string is injective. -/
lemma asString_inj (l1 l2 : List Char) (h : l1.asString = l2.asString) : l1 = l2 := by
  have := congrArg String.data h
  simpa [List.asString] using this

/-- A positive number never prints as `"0"`. -/
lemma repr_pos_ne_zero_repr (n : Nat) (hn : 0 < n) : Nat.repr n ≠ Nat.repr 0 := by
  intro h
  rw [repr_eq_digits n hn] at h
  have hd := asString_inj _ _ (h.trans rfl)
  have h2 : (Nat.digits 10 n).map Nat.digitChar = ['0'] := by
    have := congrArg List.reverse hd
    simpa using this
  have h3 : Nat.digits 10 n = [0] := by
    apply map_digitChar_inj _ [0]
    · intro d hd2; exact Nat.digits_lt_base (by norm_num) hd2
    · intro d hd2; simp at hd2; omega
    · rw [h2]; decide
  have := Nat.ofDigits_digits 10 n
  rw [h3] at this
  simp [Nat.ofDigits] at this
  omega

/-- Distinct numbers have distinct decimal renderings, hence the
time-derived message ids `str(int(time.time()*1000))` coincide only when
the millisecond readings coincide. -/
lemma Nat_repr_injective : Function.Injective Nat.repr := by
  intro m n h
  rcases Nat.eq_zero_or_pos m with hm | hm <;> rcases Nat.eq_zero_or_pos n with hn | hn
  · omega
  · subst hm; exact absurd h.symm (repr_pos_ne_zero_repr n hn)
  · subst hn; exact absurd h (repr_pos_ne_zero_repr m hm)
  · have h1 := repr_eq_digits m hm
    have h2 := repr_eq_digits n hn
    rw [h1, h2] at h
    have hd := asString_inj _ _ h
    have hrev := congrArg List.reverse hd
    simp only [List.reverse_reverse] at hrev
    have hdig : Nat.digits 10 m = Nat.digits 10 n := by
      apply map_digitChar_inj
      · intro d hd2; exact Nat.digits_lt_base (by norm_num) hd2
      · intro d hd2; exact Nat.digits_lt_base (by norm_num) hd2
      · exact hrev
    have := Nat.ofDigits_digits 10 m
    rw [hdig, Nat.ofDigits_digits] at this
    omega

/-- An operation that performs no `set` leaves the globals untouched. -/
lemma apply_op_no_write (s : SlotState) (op : Op) (h : op_writes op = false) :
    apply_op s op = s := by
  cases op with
  | consoleLine line now_ms =>
    show (match console_input_step s line now_ms with
      | .terminated => s
      | .looped s2 _ => s2) = s
    unfold console_input_step
    by_cases h1 : line = ""
    · simp [h1]
    · by_cases h2 : pyStrip line = ""
      · simp [h1, h2]
      · exfalso
        simp [op_writes, h1, h2] at h
  | getMessages => rfl
  | postResponse parsed => rfl

/-- A whole schedule without a single `set` leaves the globals untouched. -/
lemma foldl_no_write : ∀ (ops : List Op) (s : SlotState),
    (∀ op ∈ ops, op_writes op = false) → ops.foldl apply_op s = s := by
  intro ops
  induction ops with
  | nil => intro s _; rfl
  | cons op tl ih =>
    intro s h
    rw [List.foldl_cons, apply_op_no_write s op (h op (by simp))]
    exact ih s (fun o ho => h o (by simp [ho]))

/-- Every single operation preserves the presence invariant. -/
lemma slot_invariant_step (s : SlotState) (op : Op) (h : slot_invariant s) :
    slot_invariant (apply_op s op) := by
  cases op with
  | consoleLine line now_ms =>
    show slot_invariant (match console_input_step s line now_ms with
      | .terminated => s
      | .looped s2 _ => s2)
    unfold console_input_step
    by_cases h1 : line = ""
    · simp only [h1, if_pos]
      exact h
    · simp only [h1, if_neg, if_false]
      by_cases h2 : pyStrip line = ""
      · simp only [h2, if_pos]
        exact h
      · simp only [h2, if_neg, if_false]
        rfl
  | getMessages => exact h
  | postResponse parsed => exact h

/-- C1: a datagram whose decoded, trimmed payload is exactly
`FLUENS_DISCOVER` gets the reply `FLUENS_ESP32_HERE:<port>` sent to the
address of the sender, with `<port>` the HTTP port injected at startup;
every other payload gets no reply. -/
theorem C1_discovery_reply (http_port : Nat) (payload : String) (addr : String × Nat) :
    (pyStrip payload = "FLUENS_DISCOVER" →
      udp_discovery_step http_port payload addr =
        some ("FLUENS_ESP32_HERE:" ++ toString http_port, addr)) ∧
    (pyStrip payload ≠ "FLUENS_DISCOVER" →
      udp_discovery_step http_port payload addr = none) := by
  constructor
  · intro h
    simp [udp_discovery_step, h]
  · intro h
    simp [udp_discovery_step, h]

/-- Witness for C1: with HTTP port 8080, the payload `"FLUENS_DISCOVER\n"`
(stripping to the probe literal) is answered with `FLUENS_ESP32_HERE:8080`,
and the payload `"PING"` is not answered. -/
theorem C1_discovery_reply_witness :
    udp_discovery_step 8080 "FLUENS_DISCOVER\n" ("192.168.1.7", 54321) =
      some ("FLUENS_ESP32_HERE:8080", ("192.168.1.7", 54321)) ∧
    udp_discovery_step 8080 "PING" ("192.168.1.7", 54321) = none := by
  constructor
  · have h := (C1_discovery_reply 8080 "FLUENS_DISCOVER\n" ("192.168.1.7", 54321)).1
      (by decide)
    rw [h]
    decide
  · exact (C1_discovery_reply 8080 "PING" ("192.168.1.7", 54321)).2 (by decide)

/-- Counterexample to C2 as stated: ids come from the millisecond clock,
so two writes within the same millisecond carry the same id.  Start from a
slot whose id `"1000"` (written at clock value 1000 ms) was returned by a
`get`; a later `set("m1")` at the same clock value 1000 ms yields a slot
whose `get` returns the text `m1` but an id equal to — not distinct from,
not ordered after — the id returned before `m1` was set. -/
theorem C2_counterexample :
    slot_get (set_message "m0" 1000) = (some "m0", some "1000") ∧
    slot_get (run_sets (set_message "m0" 1000) [("m1", 1000)]) = (some "m1", some "1000") ∧
    (slot_get (run_sets (set_message "m0" 1000) [("m1", 1000)])).2 =
      (slot_get (set_message "m0" 1000)).2 := by
  refine ⟨?_, ?_, rfl⟩ <;> decide

/-- C2 amended: after `set(m1), …, set(mn)` with no interleaved `get`, a
`get` returns exactly `mn` with the id minted at the clock reading of the
`set(mn)`; and provided the millisecond clock has strictly advanced past
the reading that minted any previously returned id, the returned id is
distinct from it (ids are only non-decreasing in general: equal clock
readings repeat the id, as the counterexample shows). -/
theorem C2_last_write_wins (s : SlotState) (ws : List (String × Nat)) (mn : String) (tn : Nat)
    (t0 : Nat) (hid : s.current_message_id = some (Nat.repr t0)) (hclock : t0 < tn) :
    slot_get (run_sets s (ws ++ [(mn, tn)])) = (some mn, some (Nat.repr tn)) ∧
    (run_sets s (ws ++ [(mn, tn)])).current_message_id ≠ s.current_message_id := by
  have hrun : run_sets s (ws ++ [(mn, tn)]) = set_message mn tn := by
    rw [run_sets, List.foldl_append]
    rfl
  constructor
  · rw [hrun]; rfl
  · rw [hrun, hid]
    simp only [set_message, Option.some.injEq, ne_eq]
    intro h
    exact absurd (Nat_repr_injective h) (by omega)

/-- Witness for the amended C2: starting from a slot whose id was minted at
1000 ms, the writes `set("a")` at 1001 ms and `set("m1")` at 1002 ms leave
`("m1", "1002")` in the slot, distinct from the earlier id `"1000"`. -/
theorem C2_last_write_wins_witness :
    (set_message "m0" 1000).current_message_id = some (Nat.repr 1000) ∧
    1000 < 1002 ∧
    slot_get (run_sets (set_message "m0" 1000) [("a", 1001), ("m1", 1002)]) =
      (some "m1", some (Nat.repr 1002)) ∧
    (run_sets (set_message "m0" 1000) [("a", 1001), ("m1", 1002)]).current_message_id ≠
      (set_message "m0" 1000).current_message_id := by
  have h := C2_last_write_wins (set_message "m0" 1000) [("a", 1001)] "m1" 1002 1000 rfl
    (by decide)
  exact ⟨rfl, by decide, h.1, h.2⟩

/-- C3: in every state reached without a single `set` having been
performed, `GET /messages` answers 200 with the empty JSON object; once a
message is present (the slot holds a truthy text and its id), it answers
200 with an object whose keys are exactly `message` and `id`, holding the
text and id of the slot. -/
theorem C3_poll_serialization :
    (∀ ops : List Op, (∀ op ∈ ops, op_writes op = false) →
      (handle_get_messages (ops.foldl apply_op initialState)).2 =
        { status := 200, content_type := "application/json", body := Json.obj [] }) ∧
    ∀ (t i : String), t ≠ "" →
      (handle_get_messages { current_message := some t, current_message_id := some i }).2 =
        { status := 200, content_type := "application/json",
          body := Json.obj [("message", Json.str t), ("id", Json.str i)] } := by
  constructor
  · intro ops h
    rw [foldl_no_write ops initialState h]
    rfl
  · intro t i ht
    simp [handle_get_messages, py_truthy, jsonOfOpt, ht]

/-- Witness for C3: a schedule of one poll, one blank console line and one
failed POST performs no `set` and still polls as `{}`; and the populated
slot `("ping", "1730000000000")` is served as
`{"message": "ping", "id": "1730000000000"}`. -/
theorem C3_poll_serialization_witness :
    (∀ op ∈ [Op.getMessages, Op.consoleLine "\n" 7, Op.postResponse (Except.error ())],
      op_writes op = false) ∧
    (handle_get_messages
        (List.foldl apply_op initialState
          [Op.getMessages, Op.consoleLine "\n" 7, Op.postResponse (Except.error ())])).2 =
      { status := 200, content_type := "application/json", body := Json.obj [] } ∧
    ("ping" : String) ≠ "" ∧
    (handle_get_messages
        { current_message := some "ping", current_message_id := some "1730000000000" }).2 =
      { status := 200, content_type := "application/json",
        body := Json.obj [("message", Json.str "ping"), ("id", Json.str "1730000000000")] } :=
  ⟨by decide,
   C3_poll_serialization.1 [Op.getMessages, Op.consoleLine "\n" 7,
     Op.postResponse (Except.error ())] (by decide),
   by decide,
   C3_poll_serialization.2 "ping" "1730000000000" (by decide)⟩

/-- C4: posting `{"response": "hello"}` yields status 200 with body `OK`
and prints a console line carrying `hello`; a body that does not parse as
JSON yields status 400 and prints nothing.  The handler is a total
function of the parse outcome: every outcome is answered, none escapes. -/
theorem C4_post_response :
    handle_post_response (Except.ok (Json.obj [("response", Json.str "hello")])) =
      { status := 200, body := some "OK",
        console_output := some ("\n[APP SAYS]: " ++ "hello" ++ "\n> ") } ∧
    handle_post_response (Except.error ()) =
      { status := 400, body := none, console_output := none } :=
  ⟨rfl, rfl⟩

/-- C5: a parsed JSON object with no `response` key is handled as if the
field were the empty string: status 200, body `OK`, and the console line
printed around the empty text — never an error. -/
theorem C5_missing_field_defaults (fields : List (String × Json))
    (h : ∀ kv ∈ fields, kv.1 ≠ "response") :
    handle_post_response (Except.ok (Json.obj fields)) =
      { status := 200, body := some "OK",
        console_output := some ("\n[APP SAYS]: " ++ "" ++ "\n> ") } := by
  have hf : fields.find? (fun kv => kv.1 == "response") = none := by
    rw [List.find?_eq_none]
    intro kv hkv
    simp [h kv hkv]
  simp [handle_post_response, dict_get, hf, pyStr]

/-- Witness for C5: the object `{"other": 3}` lacks the `response` key and
is accepted with status 200. -/
theorem C5_missing_field_defaults_witness :
    (∀ kv ∈ [(("other" : String), Json.num 3)], kv.1 ≠ "response") ∧
    handle_post_response (Except.ok (Json.obj [("other", Json.num 3)])) =
      { status := 200, body := some "OK",
        console_output := some ("\n[APP SAYS]: " ++ "" ++ "\n> ") } :=
  ⟨by decide, C5_missing_field_defaults [("other", Json.num 3)] (by decide)⟩

/-- C6: polling is idempotent and side-effect free — the GET handler hands
back the state unchanged, and a second consecutive call returns the very
same response. -/
theorem C6_poll_idempotent (s : SlotState) :
    (handle_get_messages s).1 = s ∧
    (handle_get_messages ((handle_get_messages s).1)).2 = (handle_get_messages s).2 :=
  ⟨rfl, rfl⟩

/-- C7: in every reachable state of the slot — starting from the empty
process-start state and applying any sequence of console, GET and POST
operations — the id is present iff the text is present. -/
theorem C7_presence_invariant (ops : List Op) :
    slot_invariant (ops.foldl apply_op initialState) := by
  have key : ∀ (l : List Op) (s : SlotState), slot_invariant s →
      slot_invariant (l.foldl apply_op s) := by
    intro l
    induction l with
    | nil => intro s h; exact h
    | cons op tl ih => intro s h; exact ih _ (slot_invariant_step s op h)
  exact key ops initialState rfl

/-- C8: `readline` returning the empty string (end of input) terminates the
console loop cleanly; a line whose stripped text is non-empty writes that
text (with a fresh time-derived id) into the slot and re-prints the
prompt. -/
theorem C8_console_step (s : SlotState) (line : String) (now_ms : Nat) :
    (line = "" → console_input_step s line now_ms = ConsoleOutcome.terminated) ∧
    (pyStrip line ≠ "" →
      console_input_step s line now_ms =
        ConsoleOutcome.looped (set_message (pyStrip line) now_ms) true) := by
  constructor
  · intro h
    simp [console_input_step, h]
  · intro h
    have hline : line ≠ "" := by
      intro he
      apply h
      rw [he]
      rfl
    simp [console_input_step, hline, h]

/-- Witness for C8: the line `" hi \n"` strips to `"hi"`, which lands in
the slot with id `"42"` (at clock value 42 ms) and re-prints the prompt. -/
theorem C8_console_step_witness :
    pyStrip " hi \n" ≠ "" ∧
    console_input_step initialState " hi \n" 42 =
      ConsoleOutcome.looped
        { current_message := some "hi", current_message_id := some "42" } true := by
  constructor
  · decide
  · have h := (C8_console_step initialState " hi \n" 42).2 (by decide)
    rw [h]
    decide

/-- C9: a body that parses to a non-object JSON document (array, string,
number, boolean or null) is answered with status 400 and no console
output, because `data.get` raises `AttributeError` inside the `try`
block. -/
theorem C9_nonobject_rejected (j : Json) (h : ∀ fields, j ≠ Json.obj fields) :
    handle_post_response (Except.ok j) =
      { status := 400, body := none, console_output := none } := by
  cases j with
  | obj fields => exact absurd rfl (h fields)
  | null => rfl
  | bool b => rfl
  | num n => rfl
  | str s => rfl
  | arr xs => rfl

/-- Witness for C9: the valid JSON document `[]` is not an object and is
answered with status 400 and no console output. -/
theorem C9_nonobject_rejected_witness :
    (∀ fields, Json.arr [] ≠ Json.obj fields) ∧
    handle_post_response (Except.ok (Json.arr [])) =
      { status := 400, body := none, console_output := none } :=
  ⟨fun _fields h => Json.noConfusion h,
   C9_nonobject_rejected (Json.arr []) (fun _fields h => Json.noConfusion h)⟩

/-- C10: when the text of the slot is the empty string (with any id),
Python truthiness makes `GET /messages` answer the empty object `{}`,
exactly as if no message were present. -/
theorem C10_empty_string_indistinguishable (oid : Option String) :
    (handle_get_messages { current_message := some "", current_message_id := oid }).2 =
      { status := 200, content_type := "application/json", body := Json.obj [] } :=
  rfl
